import Mathlib

/-!
# Sweepstake 2.0: round lifecycle orchestrator

A shallow embedding of `Sweepstake2.0/server/server.js` (heartbeat automation loop,
event handlers, `saveToHistory`), of `Sweepstake2.0/src/App.jsx` (`refreshData`,
`calculateTimeLeft`, the ROUND TIMER card, `handleSelect`, `buyTicket`) and of the timer
of the original client `Sweepstake/SweepstakeDapp/src/App.jsx` (`updateTimer`).

Modelling conventions.
* Ledger integers (`bigint` values returned by ethers) and clock readings are `Nat`;
  `Number(x)` is the identity, which is exact below `2^53`.
* A remote call made during one run of a callback is a field of type `Except JsError _`:
  `.ok v` when the awaited promise resolves to `v`, `.error e` when it rejects with `e`.
* A callback is split into the body of its `try` block and its `catch` block; the
  result of a run records what was observed (console lines, calls, state) and whether
  a value was thrown out of the callback.
-/

namespace Sweepstake

/-! ## JavaScript values -/

/-- A thrown JavaScript value as the catch blocks read it: the properties `message` and
`reason`, each `none` when the property is missing. -/
structure JsError where
  message : Option String
  reason : Option String
deriving DecidableEq, Repr

/-- The `TypeError` raised by the runtime when a property of `undefined` is read or a
non-function is called. -/
def typeError : JsError := ⟨some "TypeError", none⟩

/-- The `SyntaxError` raised by `JSON.parse` on text that is not JSON. -/
def syntaxError : JsError := ⟨some "SyntaxError", none⟩

/-- Worker of `includes`: does `p` occur as a contiguous block of the list. -/
def includesChars (p : List Char) : List Char → Bool
  | [] => p.isEmpty
  | c :: cs => p.isPrefixOf (c :: cs) || includesChars p cs

/-- `s.includes(p)` of JavaScript strings. -/
def includes (s p : String) : Bool := includesChars p.data s.data

/-- `a || b` on a possibly missing string: `a` when it is present and not empty. -/
def orElse (a : Option String) (b : String) : String :=
  match a with
  | some r => if r = "" then b else r
  | none => b

/-! ## Server: the heartbeat (server.js, lines 38-60) -/

/-- A transaction response: its hash and the outcome of `tx.wait()`. -/
structure Tx where
  hash : String
  wait : Except JsError Unit

/-- What the ledger answers to the server during one heartbeat tick. -/
structure Contract where
  roundStart : Except JsError Nat
  ROUND_DURATION : Except JsError Nat
  getParticipantsCount : Except JsError Nat
  requestWinningNumbers : Except JsError Tx

/-- Observable steps of a tick, in order. -/
inductive Effect
  | consoleLog (line : String)
  | consoleError (args : List String)
  | requestWinningNumbers
  | txWait
deriving DecidableEq, Repr

/-- Result of running a callback: what it did, and the value thrown out of it (if any). -/
structure Run (σ : Type) where
  state : σ
  thrown : Option JsError

/-- `Math.floor(Date.now() / 1000)` for a clock reading `dateNow` in milliseconds. -/
def serverNow (dateNow : Nat) : Nat := dateNow / 1000

/-- `Number(startTime) + Number(duration)`. -/
def serverDeadline (startTime duration : Nat) : Nat := startTime + duration

/-- The guard of line 47: `startTime > 0 && now >= deadline && count > 0`. -/
def drawDue (startTime duration count dateNow : Nat) : Bool :=
  decide (startTime > 0) && decide (serverNow dateNow ≥ serverDeadline startTime duration)
    && decide (count > 0)

/-- The `try` block of the heartbeat callback. -/
def heartbeatTry (contract : Contract) (dateNow : Nat) : Run (List Effect) :=
  match contract.roundStart with
  | .error e => ⟨[], some e⟩
  | .ok startTime =>
    match contract.ROUND_DURATION with
    | .error e => ⟨[], some e⟩
    | .ok duration =>
      match contract.getParticipantsCount with
      | .error e => ⟨[], some e⟩
      | .ok count =>
        if drawDue startTime duration count dateNow then
          let pre := [Effect.consoleLog "⏰ Timer expired. Triggering Draw...",
                      Effect.requestWinningNumbers]
          match contract.requestWinningNumbers with
          | .error e => ⟨pre, some e⟩
          | .ok tx =>
            let sent := pre ++ [Effect.consoleLog ("Sent: " ++ tx.hash), Effect.txWait]
            match tx.wait with
            | .error e => ⟨sent, some e⟩
            | .ok () => ⟨sent ++ [Effect.consoleLog "✅ Draw Request Confirmed."], none⟩
        else ⟨[], none⟩

/-- The `catch (error)` block of the heartbeat callback. Reading `.includes` off a
missing `message` throws a `TypeError` out of the callback. -/
def heartbeatCatch (error : JsError) : Run (List Effect) :=
  match error.message with
  | none => ⟨[], some typeError⟩
  | some message =>
    if !(includes message "No players") then
      ⟨[Effect.consoleError ["Automation Error:", orElse error.reason message]], none⟩
    else ⟨[], none⟩

/-- One heartbeat tick: the callback given to `setInterval`. -/
def heartbeat (contract : Contract) (dateNow : Nat) : Run (List Effect) :=
  let body := heartbeatTry contract dateNow
  match body.thrown with
  | none => body
  | some error =>
    let handler := heartbeatCatch error
    ⟨body.state ++ handler.state, handler.thrown⟩

/-- The tick called `requestWinningNumbers`. -/
def callsRequest (r : Run (List Effect)) : Prop := Effect.requestWinningNumbers ∈ r.state

instance (r : Run (List Effect)) : Decidable (callsRequest r) := by
  unfold callsRequest; infer_instance

/-- Round phase as the specification derives it (section 4.3, in the order the
heartbeat claim lists the cases). -/
inductive Phase
  | NotStarted | Drawing | Active | Expired
deriving DecidableEq, Repr

/-- Phase derivation of the specification: `NotStarted` if `startTime == 0`, `Drawing`
if the ledger flag is set, `Active` if `now < startTime + duration`, else `Expired`. -/
def specPhase (startTime duration now : Nat) (drawingInProgress : Bool) : Phase :=
  if startTime = 0 then .NotStarted
  else if drawingInProgress then .Drawing
  else if now < startTime + duration then .Active
  else .Expired

/-- A ledger whose three reads succeed with the given snapshot. -/
def ledgerOf (startTime duration count : Nat) (request : Except JsError Tx) : Contract :=
  ⟨.ok startTime, .ok duration, .ok count, request⟩

/-! ## Server: the history files (server.js, lines 20-34 and 64-71) -/

/-- JSON values; numbers written by the server are integers. -/
inductive Json
  | null
  | bool (b : Bool)
  | num (n : Int)
  | str (s : String)
  | arr (items : List Json)
  | obj (fields : List (String × Json))

/-- Text of a file as `JSON.parse` sees it: the value it parses to, or text that it
rejects. `JSON.stringify` followed by `JSON.parse` gives the value back. -/
inductive FileText
  | json (value : Json)
  | malformed

/-- The files of the working directory: `none` where `fs.existsSync` is false. -/
abbrev FileSystem := String → Option FileText

/-- `fs.writeFileSync(filename, text)`. -/
def writeFileSync (files : FileSystem) (filename : String) (text : FileText) : FileSystem :=
  fun name => if name = filename then some text else files name

/-- `JSON.parse(fs.readFileSync(filename))` on an existing file. -/
def parseFile : FileText → Except JsError Json
  | .json value => .ok value
  | .malformed => .error syntaxError

/-- `current.push(data)`: only an array has a callable `push`. -/
def push (current data : Json) : Except JsError Json :=
  match current with
  | .arr items => .ok (.arr (items ++ [data]))
  | _ => .error typeError

/-- The function `saveToHistory(filename, data)`; `data` is given by its JSON image.
The result is the file system after the call, or the value thrown. -/
def saveToHistory (files : FileSystem) (filename : String) (data : Json) :
    Except JsError FileSystem :=
  let current : Except JsError Json :=
    match files filename with
    | none => .ok (.arr [])
    | some text => parseFile text
  match current with
  | .error e => .error e
  | .ok value =>
    match push value data with
    | .error e => .error e
    | .ok updated => .ok (writeFileSync files filename (.json updated))

/-- The records stored in a history file: the items when it holds a JSON array, the
empty list when the file does not exist. -/
def readAll (files : FileSystem) (filename : String) : Option (List Json) :=
  match files filename with
  | none => some []
  | some (.json (.arr items)) => some items
  | some _ => none

/-- The server process as the event handlers see it. -/
structure Server where
  console : List String
  files : FileSystem

/-- `numbers.join(", ")`. -/
def joinNumbers (numbers : List Nat) : String := ", ".intercalate (numbers.map toString)

/-- The object literal written on `TicketPurchased`; `time` is the ISO text that
`JSON.stringify` gives for `new Date()`. -/
def ticketRecord (roundId : Nat) (player : String) (numbers : List Nat) (time : String) : Json :=
  .obj [("roundId", .str (toString roundId)), ("player", .str player),
        ("numbers", .arr (numbers.map fun n => Json.num n)), ("time", .str time)]

/-- The object literal written on `WinningNumbersPick`. -/
def winnerRecord (roundId : Nat) (numbers : List Nat) (ethWon : String) : Json :=
  .obj [("roundId", .str (toString roundId)),
        ("numbers", .arr (numbers.map fun n => Json.num n)), ("prize", .str ethWon)]

/-- Handler of `contract.on("TicketPurchased", ...)`. -/
def onTicketPurchased (roundId : Nat) (player : String) (numbers : List Nat) (time : String)
    (server : Server) : Run Server :=
  let log := "[Round " ++ toString roundId ++ "] 🎟️ Ticket: " ++ player ++ " | Numbers: ["
    ++ joinNumbers numbers ++ "]"
  let console := server.console ++ [log]
  match saveToHistory server.files "tickets.json" (ticketRecord roundId player numbers time) with
  | .error e => ⟨⟨console, server.files⟩, some e⟩
  | .ok files => ⟨⟨console, files⟩, none⟩

/-- Handler of `contract.on("WinningNumbersPick", ...)`; `formatEther` is
`ethers.formatEther`. -/
def onWinningNumbersPick (formatEther : Nat → String) (roundId : Nat) (numbers : List Nat)
    (prizePool : Nat) (server : Server) : Run Server :=
  let ethWon := formatEther prizePool
  let console := server.console ++
    ["\n🏆 DRAW COMPLETE - ROUND " ++ toString roundId,
     "Winning Numbers: [" ++ joinNumbers numbers ++ "]",
     "Total Prize Distributed: " ++ ethWon ++ " ETH\n"]
  match saveToHistory server.files "winners.json" (winnerRecord roundId numbers ethWon) with
  | .error e => ⟨⟨console, server.files⟩, some e⟩
  | .ok files => ⟨⟨console, files⟩, none⟩

/-- A fresh working directory and an empty console. -/
def freshServer : Server := ⟨[], fun _ => none⟩

/-! ## Client: `refreshData` and the ROUND TIMER card (App.jsx) -/

/-- The React state that `refreshData` writes. -/
structure AppState where
  poolBalance : String
  participantsCount : Nat
  isDrawing : Bool
  timeLeft : String
  winningNumbers : List Nat
deriving DecidableEq, Repr

/-- The `useState` initial values. -/
def initialState : AppState := ⟨"0", 0, false, "NOT STARTED", []⟩

/-- What the ledger answers to the client during one run of `refreshData`. -/
structure Lotto where
  getPoolBalance : Except JsError Nat
  getParticipantsCount : Except JsError Nat
  drawingInProgress : Except JsError Bool
  roundStart : Except JsError Nat
  ROUND_DURATION : Except JsError Nat
  winningNumbers : Nat → Except JsError Nat

/-- The function `calculateTimeLeft(endTime)`, with `dateNow` the reading of `Date.now()`
it takes: `Math.floor` of a quotient is floor division, `%` keeps the sign of the
dividend. -/
def calculateTimeLeft (endTime dateNow : Nat) : String :=
  let diff : Int := (endTime : Int) - (dateNow : Int)
  let mins := Int.fdiv diff 60000
  let secs := Int.fdiv (Int.tmod diff 60000) 1000
  toString mins ++ "m " ++ toString secs ++ "s"

/-- `(Number(start) + Number(duration)) * 1000`. -/
def clientEndTime (start duration : Nat) : Nat := (start + duration) * 1000

/-- `endTime - Date.now()` in `refreshData`. -/
def clientDiff (start duration dateNow : Nat) : Int :=
  (clientEndTime start duration : Int) - (dateNow : Int)

/-- The "Timer Logic" block, lines 102-109: the text given to `setTimeLeft`. `now₁` is
the clock read in `refreshData`, `now₂` the one read inside `calculateTimeLeft`. -/
def timerText (start duration now₁ now₂ : Nat) : String :=
  if start = 0 then "READY TO START"
  else if clientDiff start duration now₁ ≤ 0 then "TIME EXPIRED"
  else calculateTimeLeft (clientEndTime start duration) now₂

/-- The loop of lines 112-116: seven reads, stopped by the first failure. -/
def readWinningNumbers (lotto : Lotto) : Except JsError (List Nat) :=
  (List.range 7).mapM lotto.winningNumbers

/-- The `try` block of `refreshData`: every setter runs as soon as its read returns. -/
def refreshDataTry (formatEther : Nat → String) (lotto : Lotto) (now₁ now₂ : Nat)
    (s : AppState) : Run AppState :=
  match lotto.getPoolBalance with
  | .error e => ⟨s, some e⟩
  | .ok balance =>
    let s := { s with poolBalance := formatEther balance }
    match lotto.getParticipantsCount with
    | .error e => ⟨s, some e⟩
    | .ok count =>
      let s := { s with participantsCount := count }
      match lotto.drawingInProgress with
      | .error e => ⟨s, some e⟩
      | .ok drawing =>
        let s := { s with isDrawing := drawing }
        match lotto.roundStart with
        | .error e => ⟨s, some e⟩
        | .ok start =>
          match lotto.ROUND_DURATION with
          | .error e => ⟨s, some e⟩
          | .ok duration =>
            let s := { s with timeLeft := timerText start duration now₁ now₂ }
            match readWinningNumbers lotto with
            | .error e => ⟨s, some e⟩
            | .ok nums => ⟨{ s with winningNumbers := nums }, none⟩

/-- The client: the React state and the values given to
`console.error("Data refresh failed:", e)`. -/
structure Client where
  view : AppState
  refreshFailures : List JsError

/-- The function `refreshData(lotto)`: the `catch` block logs and returns. -/
def refreshData (formatEther : Nat → String) (lotto : Lotto) (now₁ now₂ : Nat)
    (client : Client) : Run Client :=
  let body := refreshDataTry formatEther lotto now₁ now₂ client.view
  match body.thrown with
  | none => ⟨⟨body.state, client.refreshFailures⟩, none⟩
  | some e => ⟨⟨body.state, client.refreshFailures ++ [e]⟩, none⟩

/-- The value of the ROUND TIMER card, line 207. -/
def roundTimerCard (s : AppState) : String :=
  if s.isDrawing then "DRAWING..." else s.timeLeft

/-- A ledger whose reads all succeed with the given round state. -/
def lottoOf (balance count : Nat) (drawing : Bool) (start duration : Nat)
    (winning : Nat → Nat) : Lotto :=
  ⟨.ok balance, .ok count, .ok drawing, .ok start, .ok duration, fun i => .ok (winning i)⟩

/-- A failed read. -/
def networkError : JsError := ⟨some "network timeout", none⟩


/-- Decimal text of a wei amount in ether as `ethers.formatEther` prints it: whole part,
a point, and the 18-digit fraction without trailing zeros (one digit at least). Used only
to instantiate the worked examples; the handlers take the formatter as a parameter. -/
def etherText (wei : Nat) : String :=
  let digits := (toString (wei % 10 ^ 18)).data
  let padded := List.replicate (18 - digits.length) '0' ++ digits
  let trimmed := (padded.reverse.dropWhile (· == '0')).reverse
  toString (wei / 10 ^ 18) ++ "." ++ String.mk (if trimmed.isEmpty then ['0'] else trimmed)

/-! ## Scenarios of the specification -/

/-- Scenario C: three participants, deadline passed, the ledger rejects the request. -/
def scenarioC : Contract :=
  ledgerOf 1000 600 3 (.error ⟨some "already resolved", some "already resolved"⟩)

/-- A ticket event: round 1, one player, seven numbers. -/
def sampleTicket : Json := ticketRecord 1 "0xA11CE" [3, 8, 15, 21, 30, 42, 49] "2026-01-01T00:00:00.000Z"

/-- A second ticket of round 1, by another player. -/
def secondTicket : Json :=
  ticketRecord 1 "0xB0B" [1, 2, 3, 4, 5, 6, 7] "2026-01-01T00:01:00.000Z"

/-- A third ticket of round 1. -/
def thirdTicket : Json :=
  ticketRecord 1 "0xCA401" [9, 11, 13, 17, 19, 23, 29] "2026-01-01T00:02:00.000Z"

/-- A working directory whose `tickets.json` holds two records and whose `winners.json`
holds none. -/
def storedTickets : FileSystem :=
  writeFileSync (writeFileSync freshServer.files "winners.json" (.json (.arr [])))
    "tickets.json" (.json (.arr [sampleTicket, secondTicket]))

/-- Scenario A: startTime 1000, duration 600, no draw in progress, all reads succeed. -/
def scenarioA : Lotto := lottoOf 1000000000000000 1 false 1000 600 fun _ => 0

/-- A poll whose third read (`drawingInProgress`) fails after two successful reads. -/
def brokenPoll : Lotto :=
  ⟨.ok 1000000000000000, .ok 3, .error networkError, .ok 1000, .ok 600, fun _ => .ok 0⟩

/-- A client that has not polled yet. -/
def freshClient : Client := ⟨initialState, []⟩

/-! ## Client: the ticket selection (App.jsx, lines 138-161) -/

/-- The function `handleSelect(n)`, as a function of the current `selectedNumbers`: the
value given to `setSelectedNumbers`, or the unchanged selection when no setter runs. -/
def handleSelect (selectedNumbers : List Nat) (n : Nat) : List Nat :=
  if selectedNumbers.contains n then
    selectedNumbers.filter fun x => x != n
  else if selectedNumbers.length < 7 then
    selectedNumbers ++ [n]
  else selectedNumbers

/-- What one run of `buyTicket` did: the list given to `contract.buyTicket` (when it was
called), the selection left in the state, the alert shown, and whether `refreshData`
was started. -/
structure Purchase where
  submitted : Option (List Nat)
  selectedNumbers : List Nat
  alert : String
  refreshed : Bool

/-- The function `buyTicket()`; `send` is `contract.buyTicket` with its fixed value and
gas limit. -/
def buyTicket (selectedNumbers : List Nat) (send : List Nat → Except JsError Tx) : Purchase :=
  if selectedNumbers.length ≠ 7 then
    ⟨none, selectedNumbers, "Select exactly 7 numbers!", false⟩
  else
    match send selectedNumbers with
    | .error _ => ⟨some selectedNumbers, selectedNumbers, "Purchase failed. Check console.", false⟩
    | .ok tx =>
      match tx.wait with
      | .error _ =>
        ⟨some selectedNumbers, selectedNumbers, "Purchase failed. Check console.", false⟩
      | .ok () => ⟨some selectedNumbers, [], "Ticket Purchased Successfully!", true⟩

/-- The selection after a sequence of clicks on number balls, from the empty selection. -/
def selectionAfter (clicks : List Nat) : List Nat := clicks.foldl handleSelect []

/-- A ledger that accepts every ticket. -/
def acceptingLedger : List Nat → Except JsError Tx := fun _ => .ok ⟨"0x02", .ok ()⟩

namespace Dapp

/-! ## The original client: `updateTimer` (Sweepstake/SweepstakeDapp/src/App.jsx) -/

/-- The constant `ROUND_DURATION = 10 * 60`, in seconds. -/
def ROUND_DURATION : Nat := 10 * 60

/-- Lines 72-78: the round start read from the ledger, or, when the read throws,
`BigInt(Math.floor(Date.now() / 1000))` for the clock reading `dateNow`. -/
def readStart (roundStart : Except JsError Nat) (dateNow : Nat) : Nat :=
  match roundStart with
  | .ok start => start
  | .error _ => dateNow / 1000

/-- Line 80: `endTime = (Number(start) + ROUND_DURATION) * 1000`. -/
def endTime (roundStart : Except JsError Nat) (dateNow : Nat) : Nat :=
  (readStart roundStart dateNow + ROUND_DURATION) * 1000

/-- The timer state of the original client. -/
structure TimerState where
  timeLeft : String
  canDistribute : Bool
  intervalCleared : Bool
deriving DecidableEq, Repr

/-- The `useState` initial values; the interval is running. -/
def initialTimer : TimerState := ⟨"", false, false⟩

/-- The interval callback of lines 82-96, run at clock reading `now`. -/
def intervalTick (endTime now : Nat) : TimerState :=
  let distance : Int := (endTime : Int) - (now : Int)
  if distance ≤ 0 then
    ⟨"Round Finished!", true, true⟩
  else
    let minutes := Int.fdiv (Int.tmod distance (1000 * 60 * 60)) (1000 * 60)
    let seconds := Int.fdiv (Int.tmod distance (1000 * 60)) 1000
    ⟨toString minutes ++ "m " ++ toString seconds ++ "s", false, false⟩

/-- The function `updateTimer` followed by one run of its interval callback: `dateNow`
is the clock when the read returned, `now` the clock at the tick. -/
def updateTimer (roundStart : Except JsError Nat) (dateNow now : Nat) : TimerState :=
  intervalTick (endTime roundStart dateNow) now

end Dapp

/-! ## The heartbeat: when it submits, and what it does with failures -/

theorem heartbeatCatch_state_no_request (error : JsError) :
    Effect.requestWinningNumbers ∉ (heartbeatCatch error).state := by
  unfold heartbeatCatch
  cases error.message with
  | none => simp
  | some message => by_cases h : includes message "No players" <;> simp [h]

theorem heartbeat_calls_iff (contract : Contract) (dateNow : Nat) :
    callsRequest (heartbeat contract dateNow) ↔
      ∃ startTime duration count, contract.roundStart = .ok startTime ∧
        contract.ROUND_DURATION = .ok duration ∧ contract.getParticipantsCount = .ok count ∧
        drawDue startTime duration count dateNow = true := by
  have hc := heartbeatCatch_state_no_request
  unfold callsRequest heartbeat heartbeatTry
  rcases contract with ⟨rs, rd, gp, rq⟩
  cases rs with
  | error e => simpa using hc e
  | ok startTime =>
    cases rd with
    | error e => simpa using hc e
    | ok duration =>
      cases gp with
      | error e => simpa using hc e
      | ok count =>
        by_cases hdue : drawDue startTime duration count dateNow = true
        · cases rq with
          | error e => simp [hdue]
          | ok tx =>
            rcases tx with ⟨hash, wait⟩
            cases wait with
            | error e => simp [hdue]
            | ok u => simp [hdue]
        · simp [hdue]

theorem drawDue_iff (startTime duration count dateNow : Nat) :
    drawDue startTime duration count dateNow = true ↔
      0 < startTime ∧ startTime + duration ≤ dateNow / 1000 ∧ 0 < count := by
  simp [drawDue, serverNow, serverDeadline, and_assoc]

/-- C1 (counterexample). With the ledger flag `drawingInProgress` set, the specification's
phase is `Drawing`, not `Expired`; the heartbeat never reads the flag and still calls
`requestWinningNumbers` (startTime 1000, duration 600, now 1700, three participants). -/
theorem heartbeat_calls_while_drawing :
    callsRequest (heartbeat (ledgerOf 1000 600 3 (.ok ⟨"0x01", .ok ()⟩)) 1700000) ∧
      specPhase 1000 600 (serverNow 1700000) true = Phase.Drawing ∧
      specPhase 1000 600 (serverNow 1700000) true ≠ Phase.Expired := by
  decide

/-- C1 (amended). One heartbeat tick calls `requestWinningNumbers` only if the three
reads succeeded, `participantCount > 0`, and the phase derived from `startTime`,
`duration` and `now` alone (the drawing flag taken as false, since the server does not
read it) is `Expired`. -/
theorem heartbeat_calls_only_when_expired (contract : Contract) (dateNow : Nat)
    (h : callsRequest (heartbeat contract dateNow)) :
    ∃ startTime duration count, contract.roundStart = .ok startTime ∧
      contract.ROUND_DURATION = .ok duration ∧ contract.getParticipantsCount = .ok count ∧
      0 < count ∧ specPhase startTime duration (serverNow dateNow) false = Phase.Expired := by
  obtain ⟨startTime, duration, count, h1, h2, h3, hdue⟩ := (heartbeat_calls_iff contract dateNow).1 h
  obtain ⟨hs, hd, hcnt⟩ := (drawDue_iff startTime duration count dateNow).1 hdue
  refine ⟨startTime, duration, count, h1, h2, h3, hcnt, ?_⟩
  have hs0 : startTime ≠ 0 := by omega
  have hlt : ¬ dateNow / 1000 < startTime + duration := by omega
  simp [specPhase, serverNow, hs0, hlt]

theorem heartbeat_calls_only_when_expired_witness :
    ∃ startTime duration count, scenarioC.roundStart = .ok startTime ∧
      scenarioC.ROUND_DURATION = .ok duration ∧ scenarioC.getParticipantsCount = .ok count ∧
      0 < count ∧ specPhase startTime duration (serverNow 1700000) false = Phase.Expired :=
  heartbeat_calls_only_when_expired scenarioC 1700000 (by decide)

/-- Scenario B: startTime 1000, duration 600, now 1700, no participant: no call, no log. -/
theorem heartbeat_scenario_B (request : Except JsError Tx) :
    (heartbeat (ledgerOf 1000 600 0 request) 1700000).state = [] ∧
      (heartbeat (ledgerOf 1000 600 0 request) 1700000).thrown = none := by
  constructor <;> rfl

/-- With no participant the tick makes no call, whatever the other reads return. -/
theorem heartbeat_no_call_without_participants (contract : Contract) (dateNow : Nat)
    (h : contract.getParticipantsCount = .ok 0) : ¬ callsRequest (heartbeat contract dateNow) := by
  intro hcall
  obtain ⟨startTime, duration, count, _, _, h3, hdue⟩ := (heartbeat_calls_iff contract dateNow).1 hcall
  obtain ⟨_, _, hcnt⟩ := (drawDue_iff startTime duration count dateNow).1 hdue
  rw [h] at h3
  cases h3
  omega

theorem heartbeatCatch_thrown_of_message (error : JsError) (message : String)
    (h : error.message = some message) : (heartbeatCatch error).thrown = none := by
  unfold heartbeatCatch
  rw [h]
  by_cases hi : includes message "No players" <;> simp [hi]

/-- C8. A heartbeat tick in which a ledger read, `requestWinningNumbers` or `tx.wait`
fails with an error that carries a message completes normally: the `catch` block takes
the error and nothing is thrown out of the callback, so the interval timer runs the
same stateless callback again at the next tick. -/
theorem heartbeat_completes_when_error_has_message (contract : Contract) (dateNow : Nat)
    (h : ∀ error, (heartbeatTry contract dateNow).thrown = some error →
      ∃ message, error.message = some message) :
    (heartbeat contract dateNow).thrown = none := by
  cases hb : (heartbeatTry contract dateNow).thrown with
  | none => simp only [heartbeat, hb]
  | some error =>
    obtain ⟨message, hm⟩ := h error hb
    simp only [heartbeat, hb]
    exact heartbeatCatch_thrown_of_message error message hm

/-- Scenario C: the request is made, the ledger rejects it with "already resolved", the
rejection is logged and nothing is thrown. -/
theorem heartbeat_completes_when_error_has_message_witness :
    (∀ error, (heartbeatTry scenarioC 1700000).thrown = some error →
      ∃ message, error.message = some message) ∧
    (heartbeat scenarioC 1700000).thrown = none :=
  have h : ∀ error, (heartbeatTry scenarioC 1700000).thrown = some error →
      ∃ message, error.message = some message := by
    intro error he
    have : error = ⟨some "already resolved", some "already resolved"⟩ := by
      have h2 : (heartbeatTry scenarioC 1700000).thrown
          = some ⟨some "already resolved", some "already resolved"⟩ := by decide
      rw [h2] at he
      exact (Option.some.inj he).symm
    exact ⟨"already resolved", by rw [this]⟩
  ⟨h, heartbeat_completes_when_error_has_message scenarioC 1700000 h⟩

/-- Scenario C, the trace: log line, the call, and the logged rejection. -/
theorem heartbeat_scenario_C :
    (heartbeat scenarioC 1700000).state =
      [Effect.consoleLog "⏰ Timer expired. Triggering Draw...", Effect.requestWinningNumbers,
       Effect.consoleError ["Automation Error:", "already resolved"]] := by
  decide

/-- An error without a `message` makes the `catch` block itself throw. -/
theorem heartbeat_throws_without_message :
    (heartbeat (⟨.error ⟨none, none⟩, .ok 600, .ok 3, .error ⟨none, none⟩⟩ : Contract) 1700000).thrown
      = some typeError := by
  decide

/-! ## The history files: every call appends -/

theorem readAll_writeFileSync (files : FileSystem) (filename : String) (items : List Json) :
    readAll (writeFileSync files filename (.json (.arr items))) filename = some items := by
  simp [readAll, writeFileSync]

theorem saveToHistory_of_readAll (files : FileSystem) (filename : String) (h : List Json)
    (r : Json) (hh : readAll files filename = some h) :
    saveToHistory files filename r
      = .ok (writeFileSync files filename (.json (.arr (h ++ [r])))) := by
  unfold readAll at hh
  unfold saveToHistory
  cases hf : files filename with
  | none =>
    rw [hf] at hh
    cases hh
    simp [push]
  | some text =>
    rw [hf] at hh
    cases text with
    | malformed => simp at hh
    | json value =>
      cases value <;> simp at hh
      subst hh
      simp [parseFile, push]

/-- C9. When the history file holds a JSON array `h`, or does not exist (`h` empty),
`saveToHistory(file, r)` returns normally and the file then holds exactly `h` followed by
`r`: earlier records keep their content and position and the new record is last. No
other file is touched. -/
theorem saveToHistory_appends_in_order (files : FileSystem) (filename : String)
    (h : List Json) (r : Json) (hh : readAll files filename = some h) :
    ∃ after, saveToHistory files filename r = .ok after ∧
      readAll after filename = some (h ++ [r]) ∧
      (∀ i (hi : i < h.length), (h ++ [r])[i]? = some h[i]) ∧
      (h ++ [r]).getLast? = some r ∧
      ∀ other, other ≠ filename → after other = files other := by
  refine ⟨_, saveToHistory_of_readAll files filename h r hh,
    readAll_writeFileSync files filename _, ?_, by simp, ?_⟩
  · intro i hi
    simp [List.getElem?_append_left hi, List.getElem?_eq_getElem hi]
  · intro other ho
    simp [writeFileSync, ho]

/-- A third ticket saved after two stored ones: both keep their place, the new record
is last, and `winners.json` is untouched. -/
theorem saveToHistory_appends_in_order_witness :
    readAll storedTickets "tickets.json" = some [sampleTicket, secondTicket] ∧
    ∃ after, saveToHistory storedTickets "tickets.json" thirdTicket = .ok after ∧
      readAll after "tickets.json" = some ([sampleTicket, secondTicket] ++ [thirdTicket]) ∧
      (∀ i (hi : i < [sampleTicket, secondTicket].length),
        ([sampleTicket, secondTicket] ++ [thirdTicket])[i]?
          = some [sampleTicket, secondTicket][i]) ∧
      ([sampleTicket, secondTicket] ++ [thirdTicket]).getLast? = some thirdTicket ∧
      ∀ other, other ≠ "tickets.json" → after other = storedTickets other :=
  ⟨rfl, saveToHistory_appends_in_order storedTickets "tickets.json"
    [sampleTicket, secondTicket] thirdTicket rfl⟩

/-- The same call on the concrete files: three records in delivery order. -/
theorem saveToHistory_third_ticket :
    (saveToHistory storedTickets "tickets.json" thirdTicket).toOption.bind
        (fun after => readAll after "tickets.json")
      = some [sampleTicket, secondTicket, thirdTicket] := by
  rfl

/-- C2 (counterexample). The same `TicketPurchased` event delivered twice to a fresh
server leaves two records in `tickets.json`, and the same `WinningNumbersPick` event
delivered twice leaves two records in `winners.json`. -/
theorem duplicate_delivery_stored_twice :
    (readAll (onTicketPurchased 1 "0xA11CE" [3, 8, 15, 21, 30, 42, 49] "2026-01-01T00:00:00.000Z"
        (onTicketPurchased 1 "0xA11CE" [3, 8, 15, 21, 30, 42, 49] "2026-01-01T00:00:00.000Z"
          freshServer).state).state.files "tickets.json").map List.length = some 2 ∧
    (readAll (onWinningNumbersPick etherText 1 [3, 8, 15, 21, 30, 42, 49] 1000000000000000
        (onWinningNumbersPick etherText 1 [3, 8, 15, 21, 30, 42, 49] 1000000000000000
          freshServer).state).state.files "winners.json").map List.length = some 2 := by
  constructor <;> rfl

/-- C2 (amended). `saveToHistory` appends unconditionally: when the file holds the
array `h` (or is missing, `h` empty), saving the same record twice in sequence stores
`h` followed by two copies of it, so the length grows by exactly one per call; two
deliveries of the same `TicketPurchased` or `WinningNumbersPick` event through the
handlers yield two history entries. -/
theorem saveToHistory_twice_stores_twice (files : FileSystem) (filename : String)
    (h : List Json) (r : Json) (hh : readAll files filename = some h) :
    (∃ once twice, saveToHistory files filename r = .ok once ∧
      saveToHistory once filename r = .ok twice ∧
      readAll once filename = some (h ++ [r]) ∧
      readAll twice filename = some (h ++ [r, r]) ∧
      (h ++ [r, r]).length = h.length + 2) ∧
    (∀ console roundId player numbers time, filename = "tickets.json" →
      readAll (onTicketPurchased roundId player numbers time
          (onTicketPurchased roundId player numbers time ⟨console, files⟩).state).state.files
        "tickets.json"
        = some (h ++ [ticketRecord roundId player numbers time,
                      ticketRecord roundId player numbers time])) ∧
    (∀ formatEther console roundId numbers prizePool, filename = "winners.json" →
      readAll (onWinningNumbersPick formatEther roundId numbers prizePool
          (onWinningNumbersPick formatEther roundId numbers prizePool ⟨console, files⟩).state).state.files
        "winners.json"
        = some (h ++ [winnerRecord roundId numbers (formatEther prizePool),
                      winnerRecord roundId numbers (formatEther prizePool)])) := by
  have twice : ∀ (fs : FileSystem) (f : String) (x : Json), readAll fs f = some h →
      saveToHistory (writeFileSync fs f (.json (.arr (h ++ [x])))) f x
        = .ok (writeFileSync (writeFileSync fs f (.json (.arr (h ++ [x])))) f
            (.json (.arr ((h ++ [x]) ++ [x])))) := fun fs f x _ =>
    saveToHistory_of_readAll _ f (h ++ [x]) x (readAll_writeFileSync fs f _)
  refine ⟨⟨_, _, saveToHistory_of_readAll files filename h r hh, twice files filename r hh,
    readAll_writeFileSync _ _ _, ?_, by simp⟩, ?_, ?_⟩
  · rw [readAll_writeFileSync]; simp
  · intro console roundId player numbers time hf
    subst hf
    simp only [onTicketPurchased, saveToHistory_of_readAll files _ h _ hh, twice files _ _ hh,
      readAll_writeFileSync]
    simp
  · intro formatEther console roundId numbers prizePool hf
    subst hf
    simp only [onWinningNumbersPick, saveToHistory_of_readAll files _ h _ hh, twice files _ _ hh,
      readAll_writeFileSync]
    simp

/-- The amended statement at a fresh working directory and the sample ticket. -/
theorem saveToHistory_twice_stores_twice_witness :
    (∃ once twice, saveToHistory freshServer.files "tickets.json" sampleTicket = .ok once ∧
      saveToHistory once "tickets.json" sampleTicket = .ok twice ∧
      readAll once "tickets.json" = some ([] ++ [sampleTicket]) ∧
      readAll twice "tickets.json" = some ([] ++ [sampleTicket, sampleTicket]) ∧
      (([] : List Json) ++ [sampleTicket, sampleTicket]).length = ([] : List Json).length + 2) ∧
    (∀ console roundId player numbers time, "tickets.json" = "tickets.json" →
      readAll (onTicketPurchased roundId player numbers time
          (onTicketPurchased roundId player numbers time
            ⟨console, freshServer.files⟩).state).state.files "tickets.json"
        = some ([] ++ [ticketRecord roundId player numbers time,
                      ticketRecord roundId player numbers time])) ∧
    (∀ formatEther console roundId numbers prizePool, "tickets.json" = "winners.json" →
      readAll (onWinningNumbersPick formatEther roundId numbers prizePool
          (onWinningNumbersPick formatEther roundId numbers prizePool
            ⟨console, freshServer.files⟩).state).state.files "winners.json"
        = some ([] ++ [winnerRecord roundId numbers (formatEther prizePool),
                      winnerRecord roundId numbers (formatEther prizePool)])) :=
  saveToHistory_twice_stores_twice freshServer.files "tickets.json" [] sampleTicket rfl

/-! ## The client timer -/

theorem calculateTimeLeft_of_lt (endTime dateNow : Nat) (h : dateNow < endTime) :
    calculateTimeLeft endTime dateNow
      = toString ((endTime - dateNow) / 60000) ++ "m "
        ++ toString ((endTime - dateNow) % 60000 / 1000) ++ "s" := by
  have hd : (endTime : Int) - (dateNow : Int) = ((endTime - dateNow : Nat) : Int) := by omega
  have hm : ∀ d : Nat, Int.fdiv (d : Int) 60000 = ((d / 60000 : Nat) : Int) := by
    intro d
    rw [Int.fdiv_eq_ediv _ (by norm_num)]
    norm_cast
  have hsec : ∀ d : Nat,
      Int.fdiv (Int.tmod (d : Int) 60000) 1000 = ((d % 60000 / 1000 : Nat) : Int) := by
    intro d
    rw [Int.fdiv_eq_ediv _ (by norm_num), Int.tmod_eq_emod (by positivity) (by norm_num)]
    norm_cast
  unfold calculateTimeLeft
  simp only [hd, hm, hsec]
  rfl

theorem append_s_ne_expired (a : String) : a ++ "s" ≠ "TIME EXPIRED" := by
  intro h
  have h2 := congrArg (fun x => x.data.reverse) h
  simp at h2

theorem append_s_ne_ready (a : String) : a ++ "s" ≠ "READY TO START" := by
  intro h
  have h2 := congrArg (fun x => x.data.reverse) h
  simp at h2

theorem append_s_ne_drawing (a : String) : a ++ "s" ≠ "DRAWING..." := by
  intro h
  have h2 := congrArg (fun x => x.data.reverse) h
  simp at h2

theorem calculateTimeLeft_ends_in_s (endTime dateNow : Nat) :
    ∃ a, calculateTimeLeft endTime dateNow = a ++ "s" :=
  ⟨_, rfl⟩

theorem timerText_expired_iff (start duration now₁ now₂ : Nat) :
    timerText start duration now₁ now₂ = "TIME EXPIRED" ↔
      start ≠ 0 ∧ clientDiff start duration now₁ ≤ 0 := by
  unfold timerText
  by_cases hs : start = 0
  · simp [hs]
  · by_cases hd : clientDiff start duration now₁ ≤ 0
    · simp [hs, hd]
    · obtain ⟨a, ha⟩ := calculateTimeLeft_ends_in_s (clientEndTime start duration) now₂
      simp [hs, hd, ha, append_s_ne_expired]

theorem refreshData_view (formatEther : Nat → String) (lotto : Lotto) (now₁ now₂ : Nat)
    (client : Client) :
    (refreshData formatEther lotto now₁ now₂ client).state.view
      = (refreshDataTry formatEther lotto now₁ now₂ client.view).state := by
  cases h : (refreshDataTry formatEther lotto now₁ now₂ client.view).thrown <;>
    simp only [refreshData, h]

theorem refreshDataTry_state_of_reads (formatEther : Nat → String) (lotto : Lotto)
    (now₁ now₂ : Nat) (s : AppState) (balance count start duration : Nat) (drawing : Bool)
    (h1 : lotto.getPoolBalance = .ok balance) (h2 : lotto.getParticipantsCount = .ok count)
    (h3 : lotto.drawingInProgress = .ok drawing) (h4 : lotto.roundStart = .ok start)
    (h5 : lotto.ROUND_DURATION = .ok duration) :
    (refreshDataTry formatEther lotto now₁ now₂ s).state.poolBalance = formatEther balance ∧
    (refreshDataTry formatEther lotto now₁ now₂ s).state.participantsCount = count ∧
    (refreshDataTry formatEther lotto now₁ now₂ s).state.isDrawing = drawing ∧
    (refreshDataTry formatEther lotto now₁ now₂ s).state.timeLeft
      = timerText start duration now₁ now₂ := by
  unfold refreshDataTry
  simp only [h1, h2, h3, h4, h5]
  cases readWinningNumbers lotto <;> simp

theorem roundTimerCard_of_reads (formatEther : Nat → String) (lotto : Lotto)
    (now₁ now₂ : Nat) (client : Client) (balance count start duration : Nat) (drawing : Bool)
    (h1 : lotto.getPoolBalance = .ok balance) (h2 : lotto.getParticipantsCount = .ok count)
    (h3 : lotto.drawingInProgress = .ok drawing) (h4 : lotto.roundStart = .ok start)
    (h5 : lotto.ROUND_DURATION = .ok duration) :
    roundTimerCard (refreshData formatEther lotto now₁ now₂ client).state.view
      = if drawing then "DRAWING..." else timerText start duration now₁ now₂ := by
  obtain ⟨_, _, hd, ht⟩ := refreshDataTry_state_of_reads formatEther lotto now₁ now₂
    client.view balance count start duration drawing h1 h2 h3 h4 h5
  rw [refreshData_view]
  unfold roundTimerCard
  rw [hd, ht]

/-- C3 (counterexample). Scenario A read one millisecond after second 1500
(`Date.now() = 1500001`, so `now = 1500 < startTime + duration`): the card shows
"1m 39s", that is 99 seconds, while `startTime + duration - now` is 100. -/
theorem countdown_is_one_second_short :
    serverNow 1500001 = 1500 ∧ 1500 < 1000 + 600 ∧
    roundTimerCard (refreshData etherText scenarioA 1500001 1500001 freshClient).state.view
      = toString 1 ++ "m " ++ toString 39 ++ "s" ∧
    roundTimerCard (refreshData etherText scenarioA 1500001 1500001 freshClient).state.view
      = "1m 39s" ∧
    1 * 60 + 39 ≠ 1000 + 600 - serverNow 1500001 := by
  decide

/-- C3 (amended). With `startTime > 0`, no draw in progress and both clock readings
(`t₁` in `refreshData`, `t₂` in `calculateTimeLeft`, milliseconds) before the deadline,
the ROUND TIMER card shows the countdown `Mm Ss`: it is none of "TIME EXPIRED",
"READY TO START", "DRAWING...", `0 <= S < 60`, and `M*60 + S` is the time from the
second reading to the deadline cut to whole seconds. With `now = floor(t₂ / 1000)` that
is `startTime + duration - now` when `t₂` is on a whole second and one second less
otherwise. -/
theorem refreshData_countdown_before_deadline (formatEther : Nat → String) (lotto : Lotto)
    (client : Client) (balance count start duration t₁ t₂ : Nat)
    (h1 : lotto.getPoolBalance = .ok balance) (h2 : lotto.getParticipantsCount = .ok count)
    (h3 : lotto.drawingInProgress = .ok false) (h4 : lotto.roundStart = .ok start)
    (h5 : lotto.ROUND_DURATION = .ok duration) (hs : 0 < start)
    (ht₁ : t₁ < (start + duration) * 1000) (ht₂ : t₂ < (start + duration) * 1000) :
    ∃ M S : Nat,
      roundTimerCard (refreshData formatEther lotto t₁ t₂ client).state.view
        = toString M ++ "m " ++ toString S ++ "s" ∧
      S < 60 ∧ M * 60 + S = ((start + duration) * 1000 - t₂) / 1000 ∧
      (t₂ % 1000 = 0 → M * 60 + S = start + duration - t₂ / 1000) ∧
      (t₂ % 1000 ≠ 0 → M * 60 + S + 1 = start + duration - t₂ / 1000) ∧
      roundTimerCard (refreshData formatEther lotto t₁ t₂ client).state.view ≠ "TIME EXPIRED" ∧
      roundTimerCard (refreshData formatEther lotto t₁ t₂ client).state.view
        ≠ "READY TO START" ∧
      roundTimerCard (refreshData formatEther lotto t₁ t₂ client).state.view ≠ "DRAWING..." := by
  have hcard := roundTimerCard_of_reads formatEther lotto t₁ t₂ client balance count start
    duration false h1 h2 h3 h4 h5
  have hs0 : start ≠ 0 := by omega
  have hdiff : ¬ clientDiff start duration t₁ ≤ 0 := by
    unfold clientDiff clientEndTime
    push_cast
    omega
  have htext : timerText start duration t₁ t₂
      = toString (((start + duration) * 1000 - t₂) / 60000) ++ "m "
        ++ toString (((start + duration) * 1000 - t₂) % 60000 / 1000) ++ "s" := by
    unfold timerText
    rw [if_neg hs0, if_neg hdiff]
    exact calculateTimeLeft_of_lt _ _ ht₂
  have hshown : roundTimerCard (refreshData formatEther lotto t₁ t₂ client).state.view
      = toString (((start + duration) * 1000 - t₂) / 60000) ++ "m "
        ++ toString (((start + duration) * 1000 - t₂) % 60000 / 1000) ++ "s" := by
    rw [hcard]
    simpa using htext
  refine ⟨((start + duration) * 1000 - t₂) / 60000,
    ((start + duration) * 1000 - t₂) % 60000 / 1000, hshown, by omega, by omega, ?_, ?_,
    ?_, ?_, ?_⟩
  · intro hz
    omega
  · intro hz
    omega
  · rw [hshown]; exact append_s_ne_expired _
  · rw [hshown]; exact append_s_ne_ready _
  · rw [hshown]; exact append_s_ne_drawing _

/-- Scenario A with the two clock reads one millisecond apart, 1500000 then 1500001. -/
theorem refreshData_countdown_before_deadline_witness :
    ∃ M S : Nat,
      roundTimerCard (refreshData etherText scenarioA 1500000 1500001 freshClient).state.view
        = toString M ++ "m " ++ toString S ++ "s" ∧
      S < 60 ∧ M * 60 + S = ((1000 + 600) * 1000 - 1500001) / 1000 ∧
      (1500001 % 1000 = 0 → M * 60 + S = 1000 + 600 - 1500001 / 1000) ∧
      (1500001 % 1000 ≠ 0 → M * 60 + S + 1 = 1000 + 600 - 1500001 / 1000) ∧
      roundTimerCard (refreshData etherText scenarioA 1500000 1500001 freshClient).state.view
        ≠ "TIME EXPIRED" ∧
      roundTimerCard (refreshData etherText scenarioA 1500000 1500001 freshClient).state.view
        ≠ "READY TO START" ∧
      roundTimerCard (refreshData etherText scenarioA 1500000 1500001 freshClient).state.view
        ≠ "DRAWING..." :=
  refreshData_countdown_before_deadline etherText scenarioA freshClient 1000000000000000 1
    1000 600 1500000 1500001 rfl rfl rfl rfl rfl (by decide) (by decide) (by decide)

/-- The second clock read of `calculateTimeLeft` can fall after the deadline when the
first one did not: reads at 1599999 and 1600001 give a negative text. -/
theorem second_read_past_deadline :
    roundTimerCard (refreshData etherText scenarioA 1599999 1600001 freshClient).state.view
      = "-1m -1s" := by
  decide

/-- Scenario A on the whole second 1500: remaining 100 seconds, shown as "1m 40s". -/
theorem scenario_A_display :
    roundTimerCard (refreshData etherText scenarioA 1500000 1500000 freshClient).state.view
      = "1m 40s" := by
  decide

/-- C4 (counterexample). A round that has not started (`startTime = 0`, duration 600,
no draw in progress) read at second 1700 satisfies `now >= startTime + duration`, and the
card shows "READY TO START", not "TIME EXPIRED". -/
theorem not_started_round_is_not_expired :
    0 + 600 ≤ serverNow 1700000 ∧
    roundTimerCard (refreshData etherText (lottoOf 0 0 false 0 600 fun _ => 0)
      1700000 1700000 freshClient).state.view = "READY TO START" ∧
    roundTimerCard (refreshData etherText (lottoOf 0 0 false 0 600 fun _ => 0)
      1700000 1700000 freshClient).state.view ≠ "TIME EXPIRED" := by
  decide

/-- C4 (amended). With `startTime > 0`, no draw in progress and the clock at or past
the deadline (`now >= startTime + duration`, `now` the whole seconds of the reading),
the card shows "TIME EXPIRED". -/
theorem refreshData_shows_expired (formatEther : Nat → String) (lotto : Lotto)
    (client : Client) (balance count start duration t t₂ : Nat)
    (h1 : lotto.getPoolBalance = .ok balance) (h2 : lotto.getParticipantsCount = .ok count)
    (h3 : lotto.drawingInProgress = .ok false) (h4 : lotto.roundStart = .ok start)
    (h5 : lotto.ROUND_DURATION = .ok duration) (hs : 0 < start)
    (ht : start + duration ≤ t / 1000) :
    roundTimerCard (refreshData formatEther lotto t t₂ client).state.view = "TIME EXPIRED" := by
  rw [roundTimerCard_of_reads formatEther lotto t t₂ client balance count start
    duration false h1 h2 h3 h4 h5]
  have hx : timerText start duration t t₂ = "TIME EXPIRED" := by
    rw [timerText_expired_iff]
    refine ⟨by omega, ?_⟩
    unfold clientDiff clientEndTime
    push_cast
    omega
  simpa using hx

/-- Scenario B on the client: startTime 1000, duration 600, clock at second 1700. -/
theorem refreshData_shows_expired_witness :
    roundTimerCard (refreshData etherText (lottoOf 0 0 false 1000 600 fun _ => 0)
      1700000 1700000 freshClient).state.view = "TIME EXPIRED" :=
  refreshData_shows_expired etherText (lottoOf 0 0 false 1000 600 fun _ => 0) freshClient
    0 0 1000 600 1700000 1700000 rfl rfl rfl rfl rfl (by decide) (by decide)

/-- C5 (counterexample). With `startTime = 0` and the ledger flag `drawingInProgress`
set, the card shows "DRAWING...", not "READY TO START". -/
theorem not_started_round_shows_drawing :
    roundTimerCard (refreshData etherText (lottoOf 0 0 true 0 600 fun _ => 0)
      1700000 1700000 freshClient).state.view = "DRAWING..." ∧
    roundTimerCard (refreshData etherText (lottoOf 0 0 true 0 600 fun _ => 0)
      1700000 1700000 freshClient).state.view ≠ "READY TO START" := by
  decide

/-- C5 (amended). With `startTime = 0`, whatever the clock readings, `refreshData` sets
`timeLeft` to "READY TO START"; the card shows "READY TO START" when no draw is in
progress and "DRAWING..." otherwise, never "TIME EXPIRED" and never a countdown. -/
theorem refreshData_shows_ready_when_not_started (formatEther : Nat → String) (lotto : Lotto)
    (client : Client) (balance count duration t₁ t₂ : Nat) (drawing : Bool)
    (h1 : lotto.getPoolBalance = .ok balance) (h2 : lotto.getParticipantsCount = .ok count)
    (h3 : lotto.drawingInProgress = .ok drawing) (h4 : lotto.roundStart = .ok 0)
    (h5 : lotto.ROUND_DURATION = .ok duration) :
    (refreshData formatEther lotto t₁ t₂ client).state.view.timeLeft = "READY TO START" ∧
    (drawing = false →
      roundTimerCard (refreshData formatEther lotto t₁ t₂ client).state.view
        = "READY TO START") ∧
    (drawing = true →
      roundTimerCard (refreshData formatEther lotto t₁ t₂ client).state.view = "DRAWING...") ∧
    roundTimerCard (refreshData formatEther lotto t₁ t₂ client).state.view ≠ "TIME EXPIRED" ∧
    ∀ endTime dateNow,
      roundTimerCard (refreshData formatEther lotto t₁ t₂ client).state.view
        ≠ calculateTimeLeft endTime dateNow := by
  have hcard := roundTimerCard_of_reads formatEther lotto t₁ t₂ client balance count 0
    duration drawing h1 h2 h3 h4 h5
  obtain ⟨_, _, _, htl⟩ := refreshDataTry_state_of_reads formatEther lotto t₁ t₂
    client.view balance count 0 duration drawing h1 h2 h3 h4 h5
  have htext : timerText 0 duration t₁ t₂ = "READY TO START" := by simp [timerText]
  rw [htext] at hcard htl
  refine ⟨by rw [refreshData_view]; exact htl, ?_, ?_, ?_, ?_⟩
  · intro hd; rw [hcard, hd]; rfl
  · intro hd; rw [hcard, hd]; rfl
  · rw [hcard]; cases drawing <;> decide
  · intro endTime dateNow
    obtain ⟨a, ha⟩ := calculateTimeLeft_ends_in_s endTime dateNow
    rw [hcard, ha]
    cases drawing
    · exact fun h => append_s_ne_ready a h.symm
    · exact fun h => append_s_ne_drawing a h.symm

/-- A round that has not started, no draw in progress, read at second 1700. -/
theorem refreshData_shows_ready_when_not_started_witness :
    roundTimerCard (refreshData etherText (lottoOf 0 0 false 0 600 fun _ => 0)
      1700000 1700000 freshClient).state.view = "READY TO START" :=
  (refreshData_shows_ready_when_not_started etherText (lottoOf 0 0 false 0 600 fun _ => 0)
    freshClient 0 0 600 1700000 1700000 false rfl rfl rfl rfl rfl).2.1 rfl

/-- C6. After a successful `refreshData` in which the ledger reports
`drawingInProgress == true`, the card shows "DRAWING...", whatever `startTime`,
`duration` and the clock readings are. -/
theorem refreshData_shows_drawing (formatEther : Nat → String) (lotto : Lotto)
    (client : Client) (t₁ t₂ : Nat)
    (hok : (refreshDataTry formatEther lotto t₁ t₂ client.view).thrown = none)
    (hd : lotto.drawingInProgress = .ok true) :
    roundTimerCard (refreshData formatEther lotto t₁ t₂ client).state.view = "DRAWING..." := by
  rw [refreshData_view]
  unfold refreshDataTry at hok ⊢
  cases h1 : lotto.getPoolBalance with
  | error e => simp [h1] at hok
  | ok balance =>
    cases h2 : lotto.getParticipantsCount with
    | error e => simp [h1, h2] at hok
    | ok count =>
      cases h4 : lotto.roundStart with
      | error e => simp [h1, h2, hd, h4] at hok
      | ok start =>
        cases h5 : lotto.ROUND_DURATION with
        | error e => simp [h1, h2, hd, h4, h5] at hok
        | ok duration =>
          cases h6 : readWinningNumbers lotto with
          | error e => simp [h1, h2, hd, h4, h5, h6] at hok
          | ok nums => simp [hd, roundTimerCard]

/-- A draw in progress on a round that is still running (clock at second 1500). -/
theorem refreshData_shows_drawing_witness :
    roundTimerCard (refreshData etherText (lottoOf 0 3 true 1000 600 fun _ => 0)
      1500000 1500000 freshClient).state.view = "DRAWING..." :=
  refreshData_shows_drawing etherText (lottoOf 0 3 true 1000 600 fun _ => 0) freshClient
    1500000 1500000 (by decide) rfl

/-- C7 (counterexample). A poll whose third read fails has already stored the pool
balance and the participant count read before it: the snapshot is not the previous one. -/
theorem failed_poll_updates_earlier_fields :
    (refreshDataTry etherText brokenPoll 1500000 1500000 initialState).thrown
      = some networkError ∧
    (refreshData etherText brokenPoll 1500000 1500000 freshClient).state.view
      = ⟨"0.001", 3, false, "NOT STARTED", []⟩ ∧
    (refreshData etherText brokenPoll 1500000 1500000 freshClient).state.view
      ≠ freshClient.view := by
  decide

/-- C7 (amended). A poll in which a remote read fails is not propagated (the error is
logged and `refreshData` returns) and clears no field. Fields whose setter runs after
the failed read keep their previous value: all five when `getPoolBalance` fails, and
`winningNumbers` in every failed poll. Fields set before the failed read hold the values
just read. -/
theorem refreshData_failed_poll (formatEther : Nat → String) (lotto : Lotto)
    (client : Client) (t₁ t₂ : Nat) (e : JsError)
    (hfail : (refreshDataTry formatEther lotto t₁ t₂ client.view).thrown = some e) :
    (refreshData formatEther lotto t₁ t₂ client).thrown = none ∧
    (refreshData formatEther lotto t₁ t₂ client).state.refreshFailures
      = client.refreshFailures ++ [e] ∧
    (refreshData formatEther lotto t₁ t₂ client).state.view.winningNumbers
      = client.view.winningNumbers ∧
    (lotto.getPoolBalance = .error e →
      (refreshData formatEther lotto t₁ t₂ client).state.view = client.view) ∧
    (∀ balance, lotto.getPoolBalance = .ok balance →
      lotto.getParticipantsCount = .error e →
      (refreshData formatEther lotto t₁ t₂ client).state.view
        = { client.view with poolBalance := formatEther balance }) ∧
    (∀ balance count, lotto.getPoolBalance = .ok balance →
      lotto.getParticipantsCount = .ok count → lotto.drawingInProgress = .error e →
      (refreshData formatEther lotto t₁ t₂ client).state.view
        = { client.view with poolBalance := formatEther balance,
                             participantsCount := count }) ∧
    (∀ balance count drawing, lotto.getPoolBalance = .ok balance →
      lotto.getParticipantsCount = .ok count → lotto.drawingInProgress = .ok drawing →
      (lotto.roundStart = .error e ∨
        ((∃ start, lotto.roundStart = .ok start) ∧ lotto.ROUND_DURATION = .error e)) →
      (refreshData formatEther lotto t₁ t₂ client).state.view
        = { client.view with poolBalance := formatEther balance,
                             participantsCount := count, isDrawing := drawing }) ∧
    (∀ balance count drawing start duration, lotto.getPoolBalance = .ok balance →
      lotto.getParticipantsCount = .ok count → lotto.drawingInProgress = .ok drawing →
      lotto.roundStart = .ok start → lotto.ROUND_DURATION = .ok duration →
      (refreshData formatEther lotto t₁ t₂ client).state.view
        = { client.view with poolBalance := formatEther balance,
                             participantsCount := count, isDrawing := drawing,
                             timeLeft := timerText start duration t₁ t₂ }) := by
  have hthrown : (refreshData formatEther lotto t₁ t₂ client).thrown = none := by
    simp only [refreshData, hfail]
  have hlog : (refreshData formatEther lotto t₁ t₂ client).state.refreshFailures
      = client.refreshFailures ++ [e] := by
    simp only [refreshData, hfail]
  refine ⟨hthrown, hlog, ?_, ?_, ?_, ?_, ?_, ?_⟩ <;> rw [refreshData_view] <;>
    unfold refreshDataTry at hfail ⊢
  · cases h1 : lotto.getPoolBalance <;> cases h2 : lotto.getParticipantsCount <;>
      cases h3 : lotto.drawingInProgress <;> cases h4 : lotto.roundStart <;>
      cases h5 : lotto.ROUND_DURATION <;> cases h6 : readWinningNumbers lotto <;>
      simp [h1, h2, h3, h4, h5, h6] at hfail ⊢
  · intro h1
    simp [h1]
  · intro balance h1 h2
    simp [h1, h2]
  · intro balance count h1 h2 h3
    simp [h1, h2, h3]
  · intro balance count drawing h1 h2 h3 h45
    rcases h45 with h4 | ⟨⟨start, h4⟩, h5⟩
    · simp [h1, h2, h3, h4]
    · simp [h1, h2, h3, h4, h5]
  · intro balance count drawing start duration h1 h2 h3 h4 h5
    cases h6 : readWinningNumbers lotto with
    | error e2 => simp [h1, h2, h3, h4, h5, h6]
    | ok nums => simp [h1, h2, h3, h4, h5, h6] at hfail

/-- The poll whose third read fails: nothing thrown, failure logged, two fields fresh. -/
theorem refreshData_failed_poll_witness :
    (refreshData etherText brokenPoll 1500000 1500000 freshClient).thrown = none ∧
    (refreshData etherText brokenPoll 1500000 1500000 freshClient).state.refreshFailures
      = freshClient.refreshFailures ++ [networkError] ∧
    (refreshData etherText brokenPoll 1500000 1500000 freshClient).state.view.winningNumbers
      = freshClient.view.winningNumbers :=
  have h := refreshData_failed_poll etherText brokenPoll freshClient 1500000 1500000
    networkError (by decide)
  ⟨h.1, h.2.1, h.2.2.1⟩

/-- C10. For `startTime > 0`, the server's expiry test
`floor(t/1000) >= startTime + duration` and the client's test
`(startTime + duration) * 1000 - t <= 0` agree on every snapshot and every clock reading
`t` in milliseconds; hence the heartbeat guard holds exactly when there is a participant
and the client's timer text is "TIME EXPIRED". -/
theorem server_and_client_expiry_agree (start duration t count t₂ : Nat) (hs : 0 < start) :
    (serverNow t ≥ serverDeadline start duration ↔ clientDiff start duration t ≤ 0) ∧
    (drawDue start duration count t = true ↔
      0 < count ∧ timerText start duration t t₂ = "TIME EXPIRED") := by
  have hcore : serverNow t ≥ serverDeadline start duration ↔ clientDiff start duration t ≤ 0 := by
    unfold serverNow serverDeadline clientDiff clientEndTime
    push_cast
    omega
  refine ⟨hcore, ?_⟩
  rw [timerText_expired_iff, ← hcore, drawDue_iff]
  unfold serverNow serverDeadline
  constructor
  · rintro ⟨_, h2, h3⟩
    exact ⟨h3, by omega, h2⟩
  · rintro ⟨h3, _, h2⟩
    exact ⟨hs, h2, h3⟩

/-- One millisecond before the deadline of Scenario B neither side sees the round as
expired; the statement at startTime 1000, duration 600, t = 1599999. -/
theorem server_and_client_expiry_agree_witness :
    0 < 1000 ∧
    (serverNow 1599999 ≥ serverDeadline 1000 600 ↔ clientDiff 1000 600 1599999 ≤ 0) ∧
    (drawDue 1000 600 3 1599999 = true ↔
      0 < 3 ∧ timerText 1000 600 1599999 1599999 = "TIME EXPIRED") :=
  ⟨by decide, server_and_client_expiry_agree 1000 600 1599999 3 1599999 (by decide)⟩

/-! ## The heartbeat: a due draw is requested once -/

/-- C11. When the three reads succeed with `startTime > 0`, `now >= startTime + duration`
(the phase is Expired) and `participantCount > 0`, one heartbeat tick calls
`requestWinningNumbers` exactly once, whatever the ledger answers to the request. -/
theorem heartbeat_calls_once_when_expired (contract : Contract)
    (dateNow startTime duration count : Nat)
    (h1 : contract.roundStart = .ok startTime) (h2 : contract.ROUND_DURATION = .ok duration)
    (h3 : contract.getParticipantsCount = .ok count) (hs : 0 < startTime)
    (hd : startTime + duration ≤ serverNow dateNow) (hc : 0 < count) :
    callsRequest (heartbeat contract dateNow) ∧
      (heartbeat contract dateNow).state.count Effect.requestWinningNumbers = 1 := by
  have hdue : drawDue startTime duration count dateNow = true :=
    (drawDue_iff startTime duration count dateNow).2 ⟨hs, hd, hc⟩
  have hcall : callsRequest (heartbeat contract dateNow) :=
    (heartbeat_calls_iff contract dateNow).2 ⟨startTime, duration, count, h1, h2, h3, hdue⟩
  refine ⟨hcall, ?_⟩
  have hcatch : ∀ error, (heartbeatCatch error).state.count Effect.requestWinningNumbers = 0 :=
    fun error => List.count_eq_zero.2 (heartbeatCatch_state_no_request error)
  unfold heartbeat heartbeatTry
  simp only [h1, h2, h3, hdue, if_true]
  cases hr : contract.requestWinningNumbers with
  | error e => simp [List.count_cons, hcatch]
  | ok tx =>
    rcases tx with ⟨hash, wait⟩
    cases wait with
    | error e => simp [List.count_cons, hcatch]
    | ok u => simp [List.count_cons]

/-- Scenario C: three participants, deadline passed at second 1700: one request. -/
theorem heartbeat_calls_once_when_expired_witness :
    callsRequest (heartbeat scenarioC 1700000) ∧
      (heartbeat scenarioC 1700000).state.count Effect.requestWinningNumbers = 1 :=
  heartbeat_calls_once_when_expired scenarioC 1700000 1000 600 3 rfl rfl rfl
    (by decide) (by decide) (by decide)

/-! ## The ticket selection -/

theorem handleSelect_selected (selectedNumbers : List Nat) (n : Nat) (h : n ∈ selectedNumbers) :
    handleSelect selectedNumbers n = selectedNumbers.filter fun x => x != n := by
  simp [handleSelect, h]

theorem handleSelect_add (selectedNumbers : List Nat) (n : Nat) (h : n ∉ selectedNumbers)
    (hlen : selectedNumbers.length < 7) :
    handleSelect selectedNumbers n = selectedNumbers ++ [n] := by
  simp [handleSelect, h, hlen]

theorem handleSelect_full (selectedNumbers : List Nat) (n : Nat) (h : n ∉ selectedNumbers)
    (hlen : 7 ≤ selectedNumbers.length) :
    handleSelect selectedNumbers n = selectedNumbers := by
  have hlt : ¬ selectedNumbers.length < 7 := by omega
  simp [handleSelect, h, hlt]

theorem handleSelect_keeps_wellformed (selectedNumbers : List Nat) (n : Nat)
    (hnd : selectedNumbers.Nodup) (hlen : selectedNumbers.length ≤ 7) :
    (handleSelect selectedNumbers n).Nodup ∧ (handleSelect selectedNumbers n).length ≤ 7 := by
  by_cases h : n ∈ selectedNumbers
  · rw [handleSelect_selected _ _ h]
    exact ⟨hnd.filter _, le_trans (List.length_filter_le _ _) hlen⟩
  · by_cases hlt : selectedNumbers.length < 7
    · rw [handleSelect_add _ _ h hlt]
      refine ⟨?_, by simp; omega⟩
      rw [List.nodup_append]
      refine ⟨hnd, List.nodup_singleton n, ?_⟩
      intro a ha hb
      have : a = n := by simpa using hb
      exact h (this ▸ ha)
    · rw [handleSelect_full _ _ h (by omega)]
      exact ⟨hnd, hlen⟩

theorem foldl_handleSelect_wellformed (clicks : List Nat) :
    ∀ start : List Nat, start.Nodup → start.length ≤ 7 →
      (clicks.foldl handleSelect start).Nodup ∧ (clicks.foldl handleSelect start).length ≤ 7 := by
  induction clicks with
  | nil => intro start hnd hlen; exact ⟨hnd, hlen⟩
  | cons n rest ih =>
    intro start hnd hlen
    obtain ⟨h1, h2⟩ := handleSelect_keeps_wellformed start n hnd hlen
    exact ih (handleSelect start n) h1 h2

/-- C13. Starting from the empty selection, after any sequence of `handleSelect` calls
the selection has no duplicates and at most 7 numbers. `handleSelect(n)` removes `n` when
it is selected, appends `n` when it is not selected and fewer than 7 are chosen, and
otherwise leaves the selection unchanged. Hence whatever `buyTicket` gives to
`contract.buyTicket` is a list of exactly 7 distinct numbers, namely the selection. -/
theorem handleSelect_selection_wellformed (clicks : List Nat) (n : Nat)
    (send : List Nat → Except JsError Tx) :
    (selectionAfter clicks).Nodup ∧ (selectionAfter clicks).length ≤ 7 ∧
    (n ∈ selectionAfter clicks →
      handleSelect (selectionAfter clicks) n = (selectionAfter clicks).filter fun x => x != n) ∧
    (n ∈ selectionAfter clicks → n ∉ handleSelect (selectionAfter clicks) n) ∧
    (n ∉ selectionAfter clicks → (selectionAfter clicks).length < 7 →
      handleSelect (selectionAfter clicks) n = selectionAfter clicks ++ [n]) ∧
    (n ∉ selectionAfter clicks → 7 ≤ (selectionAfter clicks).length →
      handleSelect (selectionAfter clicks) n = selectionAfter clicks) ∧
    (∀ numbers, (buyTicket (selectionAfter clicks) send).submitted = some numbers →
      numbers = selectionAfter clicks ∧ numbers.length = 7 ∧ numbers.Nodup) := by
  obtain ⟨hnd, hlen⟩ := foldl_handleSelect_wellformed clicks [] List.nodup_nil (by simp)
  refine ⟨hnd, hlen, handleSelect_selected _ n, ?_, handleSelect_add _ n,
    handleSelect_full _ n, ?_⟩
  · intro h
    rw [handleSelect_selected _ n h]
    simp
  · intro numbers hsub
    unfold buyTicket at hsub
    by_cases h7 : (selectionAfter clicks).length = 7
    · have hnum : numbers = selectionAfter clicks := by
        rw [if_neg (not_not.2 h7)] at hsub
        cases hsend : send (selectionAfter clicks) with
        | error e => rw [hsend] at hsub; exact (Option.some.inj hsub).symm
        | ok tx =>
          rcases tx with ⟨hash, wait⟩
          rw [hsend] at hsub
          cases wait with
          | error e => exact (Option.some.inj hsub).symm
          | ok u => exact (Option.some.inj hsub).symm
      exact ⟨hnum, hnum ▸ h7, hnum ▸ hnd⟩
    · rw [if_pos h7] at hsub
      cases hsub

/-- Eight distinct balls clicked, then the third one clicked again and a new one: the
selection holds seven numbers and is what `buyTicket` submits. -/
theorem selection_example :
    selectionAfter [3, 8, 15, 21, 30, 42, 49, 7] = [3, 8, 15, 21, 30, 42, 49] ∧
    selectionAfter [3, 8, 15, 21, 30, 42, 49, 7, 15, 7] = [3, 8, 21, 30, 42, 49, 7] ∧
    (buyTicket (selectionAfter [3, 8, 15, 21, 30, 42, 49, 7, 15, 7]) acceptingLedger).submitted
      = some [3, 8, 21, 30, 42, 49, 7] ∧
    (buyTicket (selectionAfter [3, 8, 15]) acceptingLedger).submitted = none := by
  decide

namespace Dapp

/-! ## The original client: the fallback of `updateTimer` -/

theorem append_s_ne_finished (a : String) : a ++ "s" ≠ "Round Finished!" := by
  intro h
  have h2 := congrArg (fun x => x.data.reverse) h
  simp at h2

theorem append_s_ne_empty (a : String) : a ++ "s" ≠ "" := by
  intro h
  have h2 := congrArg (fun x => x.data.reverse) h
  simp at h2

theorem intervalTick_of_lt (endTime now : Nat) (h : now < endTime) :
    intervalTick endTime now
      = ⟨toString ((endTime - now) % 3600000 / 60000) ++ "m "
          ++ toString ((endTime - now) % 60000 / 1000) ++ "s", false, false⟩ := by
  have hd : (endTime : Int) - (now : Int) = ((endTime - now : Nat) : Int) := by omega
  have hpos : ¬ ((endTime - now : Nat) : Int) ≤ 0 := by omega
  have hm : ∀ d : Nat, Int.fdiv (Int.tmod (d : Int) (1000 * 60 * 60)) (1000 * 60)
      = ((d % 3600000 / 60000 : Nat) : Int) := by
    intro d
    rw [Int.fdiv_eq_ediv _ (by norm_num), Int.tmod_eq_emod (by positivity) (by norm_num)]
    norm_cast
  have hsec : ∀ d : Nat, Int.fdiv (Int.tmod (d : Int) (1000 * 60)) 1000
      = ((d % 60000 / 1000 : Nat) : Int) := by
    intro d
    rw [Int.fdiv_eq_ediv _ (by norm_num), Int.tmod_eq_emod (by positivity) (by norm_num)]
    norm_cast
  unfold intervalTick
  simp only [hd, hm, hsec, if_neg hpos]
  rfl

/-- C12. When the read of `roundStart` fails at clock reading `dateNow`, the start is
the current second `floor(dateNow / 1000)`, so the deadline is that second plus 600
(`ROUND_DURATION`). Every interval tick at a reading `now` from then until the deadline
shows the round as running: `timeLeft` is a countdown `Mm Ss` with `S < 60` and
`M*60 + S` the whole seconds left to the deadline (at most 600), `canDistribute` is
false and the text is neither "Round Finished!" nor the empty initial text. -/
theorem updateTimer_fallback_counts_down (error : JsError) (dateNow now : Nat)
    (h₁ : dateNow ≤ now) (h₂ : now < (dateNow / 1000 + 600) * 1000) :
    readStart (.error error) dateNow = dateNow / 1000 ∧
    endTime (.error error) dateNow = (dateNow / 1000 + ROUND_DURATION) * 1000 ∧
    ROUND_DURATION = 600 ∧
    ∃ M S : Nat,
      (updateTimer (.error error) dateNow now).timeLeft
        = toString M ++ "m " ++ toString S ++ "s" ∧
      S < 60 ∧ M * 60 + S = ((dateNow / 1000 + 600) * 1000 - now) / 1000 ∧
      M * 60 + S ≤ 600 ∧
      (updateTimer (.error error) dateNow now).canDistribute = false ∧
      (updateTimer (.error error) dateNow now).timeLeft ≠ "Round Finished!" ∧
      (updateTimer (.error error) dateNow now).timeLeft ≠ "" := by
  have hend : endTime (.error error) dateNow = (dateNow / 1000 + 600) * 1000 := rfl
  have htick := intervalTick_of_lt ((dateNow / 1000 + 600) * 1000) now h₂
  refine ⟨rfl, rfl, rfl, ((dateNow / 1000 + 600) * 1000 - now) % 3600000 / 60000,
    ((dateNow / 1000 + 600) * 1000 - now) % 60000 / 1000, ?_, by omega, by omega, by omega,
    ?_, ?_, ?_⟩
  · simp only [updateTimer, hend, htick]
  · simp only [updateTimer, hend, htick]
  · simp only [updateTimer, hend, htick]
    exact append_s_ne_finished _
  · simp only [updateTimer, hend, htick]
    exact append_s_ne_empty _

/-- The read fails at 1500000400 ms and the first tick runs one second later. -/
theorem updateTimer_fallback_counts_down_witness :
    readStart (.error networkError) 1500000400 = 1500000400 / 1000 ∧
    endTime (.error networkError) 1500000400 = (1500000400 / 1000 + ROUND_DURATION) * 1000 ∧
    ROUND_DURATION = 600 ∧
    ∃ M S : Nat,
      (updateTimer (.error networkError) 1500000400 1500001400).timeLeft
        = toString M ++ "m " ++ toString S ++ "s" ∧
      S < 60 ∧ M * 60 + S = ((1500000400 / 1000 + 600) * 1000 - 1500001400) / 1000 ∧
      M * 60 + S ≤ 600 ∧
      (updateTimer (.error networkError) 1500000400 1500001400).canDistribute = false ∧
      (updateTimer (.error networkError) 1500000400 1500001400).timeLeft ≠ "Round Finished!" ∧
      (updateTimer (.error networkError) 1500000400 1500001400).timeLeft ≠ "" :=
  updateTimer_fallback_counts_down networkError 1500000400 1500001400 (by decide) (by decide)

/-- The same run as displayed, and the tick at the deadline. -/
theorem updateTimer_fallback_example :
    updateTimer (.error networkError) 1500000400 1500001400 = ⟨"9m 58s", false, false⟩ ∧
    updateTimer (.error networkError) 1500000400 1500600000 = ⟨"Round Finished!", true, true⟩ := by
  decide

end Dapp

end Sweepstake
